import Mathlib

/-!
Verification of the per-tunnel virtual-TUN packet relay of nexus-multi-vpn.

The definitions below are a shallow embedding of the C++ sources
`app/src/main/cpp/custom_tun_client.h`, `app/src/main/cpp/openvpn_wrapper.cpp`
and `app/src/main/cpp/openvpn_jni.cpp`.  External calls (POSIX `write`,
`inet_pton`, the OpenVPN 3 engine entry points) are taken as explicit inputs;
machine integers that matter (the 32-bit netmask) are `Nat` with explicit
bit-width bounds.
-/

namespace NexusVpn

/-- State of a `CustomTunClient` adapter: the two socketpair descriptors
`app_fd_` and `lib_fd_` (negative means absent or closed; the constructor
initialises both to -1), the `halt_` flag, and whether the asio
`stream_` registration is live. -/
structure TunState where
  appFd : Int
  libFd : Int
  halt : Bool
  hasStream : Bool
deriving Repr, DecidableEq

/-- Outcome of the POSIX `write` issued by `tun_send`, supplied by the
environment: would-block (`EAGAIN`/`EWOULDBLOCK`), a hard error with some
other errno, or a (possibly short) write of `n` bytes. -/
inductive WriteOutcome where
  | wouldBlock
  | ioError (errno : Nat)
  | wrote (n : Nat)
deriving Repr, DecidableEq

/-- Record of one `write` system call: the descriptor and the byte count
requested. -/
structure WriteCall where
  fd : Int
  len : Nat
deriving Repr, DecidableEq

/-- `CustomTunClient::tun_send`: when `halt_` is set or `lib_fd_ < 0` it
returns `false` without issuing any write; otherwise it issues exactly one
`write` on `lib_fd_` and returns `false` on would-block, `false` on a hard
error, `false` on a short write, and `true` exactly when the reported count
equals the packet size.  The third component is the adapter state after the
call: the source mutates no member, so it is always the input state. -/
def tun_send (s : TunState) (packetLen : Nat) (w : WriteOutcome) :
    Bool × Option WriteCall × TunState :=
  if s.halt ∨ s.libFd < 0 then (false, none, s)
  else
    let call : Option WriteCall := some ⟨s.libFd, packetLen⟩
    match w with
    | .wouldBlock => (false, call, s)
    | .ioError _ => (false, call, s)
    | .wrote n => if n ≠ packetLen then (false, call, s) else (true, call, s)

/-- `CustomTunClient::cleanup`: sets `halt_`, cancels and deletes the
stream, then closes `app_fd_` and `lib_fd_` in that order - each only if it
is still `>= 0` - resetting each closed descriptor to -1.  Besides the new
state it returns the list of descriptor values actually passed to `close`. -/
def cleanup (s : TunState) : TunState × List Int :=
  let s1 : TunState := { s with halt := true, hasStream := false }
  let t2 : TunState × List Int :=
    if 0 ≤ s1.appFd then ({ s1 with appFd := -1 }, [s1.appFd]) else (s1, [])
  let t3 : TunState × List Int :=
    if 0 ≤ t2.1.libFd then ({ t2.1 with libFd := -1 }, [t2.1.libFd]) else (t2.1, [])
  (t3.1, t2.2 ++ t3.2)

/-- `CustomTunClient::stop`: sets `halt_` and runs `cleanup`. -/
def stop (s : TunState) : TunState × List Int :=
  cleanup { s with halt := true }

/-- Guard of `CustomTunClient::queue_read`: the next async read is actually
queued only when the adapter is not halted and the stream registration is
live. -/
def queue_read_queues (halt hasStream : Bool) : Bool :=
  !halt && hasStream

/-- Control flow of `CustomTunClient::handle_read`: given the `halt_` flag,
whether the completion carried an error code, the byte count reported, and
whether buffer allocation or `parent_.tun_recv` threw, it reports whether
`queue_read` is invoked again.  The source re-arms only inside the
no-error, `bytes_read > 0` branch - on the success path and in both catch
handlers alike - while the `else` branch (error or zero bytes) only logs
and returns without re-arming. -/
def handle_read_rearms (halt error : Bool) (bytesRead : Nat)
    (intakeThrows : Bool) : Bool :=
  if halt then false
  else if !error && decide (0 < bytesRead) then
    if intakeThrows then true else true
  else false

/-- OpenVPN `BufferAllocated`, modelled by its capacity and the data window
`[offset, offset + size)` inside it. -/
structure OVBuffer where
  capacity : Nat
  offset : Nat
  size : Nat
deriving Repr, DecidableEq

/-- `BufferAllocated(capacity, CONSTRUCT_ZERO)`: fresh buffer, data window
empty at offset 0. -/
def bufferAllocated (cap : Nat) : OVBuffer := ⟨cap, 0, 0⟩

/-- `Buffer::init_headroom(h)`: place the empty data window at offset `h`. -/
def init_headroom (b : OVBuffer) (h : Nat) : OVBuffer :=
  { b with offset := h, size := 0 }

/-- `Buffer::write_alloc(len)`: extend the data window by `len` bytes;
`none` models the failure (reallocation needed) when the window would
exceed the capacity. -/
def write_alloc (b : OVBuffer) (len : Nat) : Option OVBuffer :=
  if b.offset + b.size + len ≤ b.capacity then
    some { b with size := b.size + len }
  else none

/-- Header-prepend of `h` bytes (the engine moving the window front back to
write protocol and encryption headers in place): fails with the
buffer_push_front_headroom error when the headroom is insufficient. -/
def push_front (b : OVBuffer) (h : Nat) : Option OVBuffer :=
  if h ≤ b.offset then
    some { b with offset := b.offset - h, size := b.size + h }
  else none

/-- `HEADROOM` constant of `CustomTunClient::handle_read`. -/
def HEADROOM : Nat := 256

/-- `TAILROOM` constant of `CustomTunClient::handle_read`. -/
def TAILROOM : Nat := 128

/-- Buffer construction of `CustomTunClient::handle_read` for a packet of
`bytesRead` bytes: allocate `HEADROOM + bytesRead + TAILROOM`, run
`init_headroom(HEADROOM)`, then `write_alloc(bytesRead)` for the memcpy of
the payload. -/
def outbound_buffer (bytesRead : Nat) : Option OVBuffer :=
  write_alloc
    (init_headroom (bufferAllocated (HEADROOM + bytesRead + TAILROOM)) HEADROOM)
    bytesRead

/-- Bit loop of `CustomTunClient::netmask_to_prefix`: walks bits `n-1`
down to `0` of `mask` (the source walks 31 down to 0), counting one-bits;
`none` models the `-1` return taken when a one-bit is found after a
zero-bit has been seen (non-contiguous mask). -/
def netmask_scan (mask : Nat) : Nat → Nat → Bool → Option Nat
  | 0, count, _ => some count
  | n + 1, count, zeroSeen =>
    if mask.testBit n then
      if zeroSeen then none
      else netmask_scan mask n (count + 1) zeroSeen
    else netmask_scan mask n count true

/-- `CustomTunClient::netmask_to_prefix`: the `inet_pton` call is external,
so its result is the input (`none` = the string does not parse as an IPv4
address, `some mask` = the netmask in host byte order after `ntohl`,
a 32-bit value).  Returns -1 on parse failure or a non-contiguous mask,
otherwise the number of one-bits of the contiguous mask. -/
def netmask_to_prefix_len (parsed : Option Nat) : Int :=
  match parsed with
  | none => -1
  | some mask =>
    match netmask_scan mask 32 0 false with
    | none => -1
    | some p => (p : Int)

/-- Route branch of `CustomTunClient::extract_tun_config`: the prefix length
passed to `on_route_pushed`.  `netmaskArg` is `none` when the route option
carries no netmask string (`netmask.empty()`), otherwise `some` of the
`inet_pton` result for that string.  IPv6 routes get 128, IPv4 routes
default to 32, and a present netmask on an IPv4 route goes through
`netmask_to_prefix_len` with a fallback to 32 when that reports failure. -/
def route_prefix_len (isIpv6 : Bool) (netmaskArg : Option (Option Nat)) : Int :=
  let base : Int := if isIpv6 then 128 else 32
  match netmaskArg with
  | none => base
  | some parsed =>
    if isIpv6 then base
    else
      let p := netmask_to_prefix_len parsed
      if p < 0 then 32 else p

/-- The contiguous IPv4 netmask consisting of `k` one-bits followed by
`32 - k` zero-bits. -/
def contiguousMask (k : Nat) : Nat := 2 ^ 32 - 2 ^ (32 - k)

/-- A 32-bit mask is non-contiguous when some one-bit lies below some
zero-bit: reading from the most significant bit, a one-bit follows a
zero-bit. -/
def NonContiguous (mask : Nat) : Prop :=
  ∃ i j, j < i ∧ i < 32 ∧ mask.testBit i = false ∧ mask.testBit j = true

/-- Session-state fields of `OpenVpnSession` relevant to connect and
reconnect: the `connected` and `connecting` flags, whether the engine
client pair (`client` / `androidClient`) was constructed, and
`last_error`. -/
structure SessionState where
  connected : Bool
  connecting : Bool
  hasClient : Bool
  lastError : String
deriving Repr, DecidableEq

/-- Error codes of `openvpn_wrapper.h`. -/
def OPENVPN_ERROR_SUCCESS : Int := 0

/-- Error code: invalid parameters. -/
def OPENVPN_ERROR_INVALID_PARAMS : Int := -1

/-- Error code: config evaluation failed. -/
def OPENVPN_ERROR_CONFIG_FAILED : Int := -2

/-- Error code: authentication failed. -/
def OPENVPN_ERROR_AUTH_FAILED : Int := -3

/-- Environment of one `openvpn_wrapper_connect` call: nullness of the raw
parameters and the outcomes of the external engine calls (`eval_config`,
`provide_creds`).  `credsMsgAuthLike` is the result of the lower-cased
substring search for auth-related words on the `provide_creds` error
message. -/
structure ConnectEnv where
  configNull : Bool
  usernameNull : Bool
  passwordNull : Bool
  evalError : Bool
  evalMsg : String
  usernameEmpty : Bool
  passwordEmpty : Bool
  provideCredsError : Bool
  credsMsg : String
  credsMsgAuthLike : Bool
deriving Repr, DecidableEq

/-- `openvpn_wrapper_connect`, reduced to its session-state control flow.
The config-text normalisation only rewrites the config string and is
elided; engine call outcomes come from `env`.  The returned `Bool` records
whether the connect worker thread was spawned; the worker body runs
asynchronously and is outside this synchronous frame.  The source checks
only for null parameters and engine failures - it has no guard on the
`connecting` or `connected` flags. -/
def openvpn_wrapper_connect (session : Option SessionState) (env : ConnectEnv) :
    Int × Option SessionState × Bool :=
  match session with
  | none => (OPENVPN_ERROR_INVALID_PARAMS, none, false)
  | some s =>
    if env.configNull || env.usernameNull || env.passwordNull then
      (OPENVPN_ERROR_INVALID_PARAMS,
        some { s with lastError :=
          "Invalid parameters: session, config, username, or password is null" },
        false)
    else if !s.hasClient then
      (-1, some s, false)
    else if env.evalError then
      (OPENVPN_ERROR_CONFIG_FAILED, some { s with lastError := env.evalMsg }, false)
    else if env.usernameEmpty || env.passwordEmpty then
      (OPENVPN_ERROR_INVALID_PARAMS,
        some { s with lastError := "Credentials are empty" }, false)
    else if env.provideCredsError then
      ((if env.credsMsgAuthLike then OPENVPN_ERROR_AUTH_FAILED
        else OPENVPN_ERROR_INVALID_PARAMS),
        some { s with lastError := env.credsMsg }, false)
    else
      (OPENVPN_ERROR_SUCCESS,
        some { s with connecting := true, connected := false }, true)

/-- A `ConnectEnv` with non-null parameters and all engine calls
succeeding. -/
def happyEnv : ConnectEnv :=
  ⟨false, false, false, false, "", false, false, false, "", false⟩

/-- `reconnectSession`: skips a null session; skips (with no state change
and no engine call) a session that is neither connected nor connecting;
otherwise, when the engine client exists, invokes the engine soft-restart
`reconnect(0)` exactly once - the returned `Nat` counts those invocations -
and on an exception from it stores `last_error`. -/
def reconnectSession (session : Option SessionState) (reconnectThrows : Bool)
    (exnMsg : String) : Option SessionState × Nat :=
  match session with
  | none => (none, 0)
  | some s =>
    if !s.connected && !s.connecting then (some s, 0)
    else if s.hasClient then
      if reconnectThrows then
        (some { s with lastError := "Reconnect failed: " ++ exnMsg }, 1)
      else (some s, 1)
    else (some s, 0)

/-- The descriptors held by a constructed `CustomTunClient`, as seen by the
non-owning factory `tun_client_` pointer (before `tun_start` both fields
are -1 from the constructor). -/
structure TunClientRef where
  appFd : Int
  libFd : Int
deriving Repr, DecidableEq

/-- `CustomTunClientFactory::getAppFd`: -1 while no adapter has been built
(`tun_client_` null), otherwise the `app_fd_` of the adapter. -/
def factory_getAppFd (tunClient : Option TunClientRef) : Int :=
  match tunClient with
  | none => -1
  | some c => c.appFd

/-- Fields of `AndroidOpenVPNClient` that feed its `getAppFd`: the
`factoryCreated_` flag and the non-owning factory pointer, which when
present carries the `tun_client_` pointer held by the factory. -/
structure AndroidClientState where
  factoryCreated : Bool
  customTunClientFactory : Option (Option TunClientRef)
deriving Repr, DecidableEq

/-- `AndroidOpenVPNClient::getAppFd`: -1 unless `factoryCreated_` is set and
the factory pointer is non-null, in which case it forwards to the
factory. -/
def android_getAppFd (c : AndroidClientState) : Int :=
  if c.factoryCreated then
    match c.customTunClientFactory with
    | some f => factory_getAppFd f
    | none => -1
  else -1

/-- `openvpn_wrapper_get_app_fd`: -1 for a null session (outer `none`) or a
missing `androidClient` (inner `none`); otherwise the answer of the client, with
any negative answer clamped to -1. -/
def openvpn_wrapper_get_app_fd (session : Option (Option AndroidClientState)) : Int :=
  match session with
  | none => -1
  | some none => -1
  | some (some c) =>
    let fd := android_getAppFd c
    if fd < 0 then -1 else fd

/-- One entry of the `tunnel_sockets` registry of `openvpn_jni.cpp`: the
engine-side and application-side descriptors of the socketpair of one tunnel. -/
structure TunnelSockets where
  openvpnFd : Int
  kotlinFd : Int
deriving Repr, DecidableEq

/-- Lookup in the `tunnel_sockets` map, keyed by tunnel id. -/
def lookupSockets (reg : List (String × TunnelSockets)) (tid : String) :
    Option TunnelSockets :=
  match reg with
  | [] => none
  | (k, v) :: rest => if k = tid then some v else lookupSockets rest tid

/-- `Java_com_multiregionvpn_core_VpnConnectionManager_createPipe`: returns
the engine-side descriptor for the tunnel id.  When the id is already
registered it reuses the stored pair; otherwise `newPair` is the socketpair
the OS would produce (`none` = `socketpair` failure, mapped to -1) and the
pair is stored.  The `Bool` component records whether a new socket pair was
created by this call. -/
def createPipe (reg : List (String × TunnelSockets)) (tid : String)
    (newPair : Option TunnelSockets) :
    Int × List (String × TunnelSockets) × Bool :=
  match lookupSockets reg tid with
  | some p => (p.openvpnFd, reg, false)
  | none =>
    match newPair with
    | none => (-1, reg, false)
    | some p => (p.openvpnFd, reg ++ [(tid, p)], true)

end NexusVpn

namespace NexusVpn

/-- After `stop` the halt flag is set. -/
theorem stop_halt (s : TunState) : (stop s).1.halt = true := by
  unfold stop cleanup
  dsimp only
  split <;> split <;> rfl

/-- After `stop` the lib descriptor is closed (negative). -/
theorem stop_libFd_neg (s : TunState) : (stop s).1.libFd < 0 := by
  unfold stop cleanup
  dsimp only
  split <;> rename_i h1 <;> split <;> rename_i h2 <;> simp_all

/-- C1: after `stop()`, every subsequent `tun_send` returns `false` and
performs no write on the (closed) descriptor, for every packet length and
every would-be write outcome. -/
theorem c1_tun_send_after_stop (s : TunState) (packetLen : Nat) (w : WriteOutcome) :
    (tun_send (stop s).1 packetLen w).1 = false ∧
    (tun_send (stop s).1 packetLen w).2.1 = none := by
  have hh : (stop s).1.halt = true := stop_halt s
  unfold tun_send
  rw [if_pos (Or.inl hh)]
  exact ⟨rfl, rfl⟩

/-- C2: on a non-halted adapter with an open lib descriptor, `tun_send`
returns `false` on would-block, `false` on a hard I/O error, `false` on a
partial write, `true` exactly when the write reports the full packet size,
and in every case leaves the adapter state untouched (no teardown). -/
theorem c2_tun_send_drop_policy (s : TunState) (packetLen : Nat)
    (hh : s.halt = false) (hfd : 0 ≤ s.libFd) :
    (tun_send s packetLen .wouldBlock).1 = false
    ∧ (∀ e, (tun_send s packetLen (.ioError e)).1 = false)
    ∧ (∀ n, n < packetLen → (tun_send s packetLen (.wrote n)).1 = false)
    ∧ (∀ w, (tun_send s packetLen w).1 = true ↔ w = .wrote packetLen)
    ∧ (∀ w, (tun_send s packetLen w).2.2 = s) := by
  have hcond : ¬(s.halt = true ∨ s.libFd < 0) := by
    rintro (h | h)
    · rw [hh] at h; exact Bool.false_ne_true h
    · omega
  refine ⟨?_, ?_, ?_, ?_, ?_⟩
  · unfold tun_send; rw [if_neg hcond]
  · intro e; unfold tun_send; rw [if_neg hcond]
  · intro n hn; unfold tun_send; rw [if_neg hcond]
    simp only
    rw [if_pos (by omega)]
  · intro w; unfold tun_send; rw [if_neg hcond]
    cases w with
    | wouldBlock => simp
    | ioError e => simp
    | wrote n =>
      by_cases hn : n = packetLen
      · subst hn; simp
      · simp [hn]
  · intro w; unfold tun_send
    rw [if_neg hcond]
    cases w with
    | wouldBlock => rfl
    | ioError e => rfl
    | wrote n =>
      by_cases hn : n = packetLen
      · subst hn; simp
      · simp [hn]

/-- Witness for C2 on a concrete open adapter and a 4-byte packet. -/
theorem c2_tun_send_drop_policy_witness :
    ((tun_send ⟨5, 6, false, true⟩ 4 .wouldBlock).1 = false
    ∧ (∀ e, (tun_send ⟨5, 6, false, true⟩ 4 (.ioError e)).1 = false)
    ∧ (∀ n, n < 4 → (tun_send ⟨5, 6, false, true⟩ 4 (.wrote n)).1 = false)
    ∧ (∀ w, (tun_send ⟨5, 6, false, true⟩ 4 w).1 = true ↔ w = .wrote 4)
    ∧ (∀ w, (tun_send ⟨5, 6, false, true⟩ 4 w).2.2 = ⟨5, 6, false, true⟩)) :=
  c2_tun_send_drop_policy ⟨5, 6, false, true⟩ 4 rfl (by decide)

/-- The full effect of `stop` on an adapter whose two descriptors are open. -/
theorem stop_spec (s : TunState) (ha : 0 ≤ s.appFd) (hb : 0 ≤ s.libFd) :
    stop s = (⟨-1, -1, true, false⟩, [s.appFd, s.libFd]) := by
  unfold stop cleanup
  dsimp only
  rw [if_pos ha]
  dsimp only
  rw [if_pos hb]
  rfl

/-- C8: shutdown is idempotent: on an adapter with both descriptors open,
the first `stop` closes exactly `app_fd_` then `lib_fd_` and resets both to
-1; a second `stop` closes nothing and leaves the state unchanged, so across
both calls each of the two distinct descriptors is closed exactly once. -/
theorem c8_stop_idempotent (s : TunState)
    (ha : 0 ≤ s.appFd) (hb : 0 ≤ s.libFd) (hne : s.appFd ≠ s.libFd) :
    (stop s).2 = [s.appFd, s.libFd]
    ∧ (stop (stop s).1).2 = []
    ∧ (stop (stop s).1).1 = (stop s).1
    ∧ (stop s).1.appFd = -1 ∧ (stop s).1.libFd = -1
    ∧ ((stop s).2 ++ (stop (stop s).1).2).count s.appFd = 1
    ∧ ((stop s).2 ++ (stop (stop s).1).2).count s.libFd = 1 := by
  have h1 : stop s = (⟨-1, -1, true, false⟩, [s.appFd, s.libFd]) := stop_spec s ha hb
  have h2 : stop (⟨-1, -1, true, false⟩ : TunState) = (⟨-1, -1, true, false⟩, []) := by
    unfold stop cleanup
    norm_num
  rw [h1]
  dsimp only
  rw [h2]
  refine ⟨rfl, rfl, rfl, rfl, rfl, ?_, ?_⟩
  · simp [List.count_cons, hne]
  · simp [List.count_cons, Ne.symm hne]

/-- Witness for C8 on a concrete adapter with descriptors 7 and 8. -/
theorem c8_stop_idempotent_witness :
    ((stop ⟨7, 8, false, true⟩).2 = [7, 8]
    ∧ (stop (stop ⟨7, 8, false, true⟩).1).2 = []
    ∧ (stop (stop ⟨7, 8, false, true⟩).1).1 = (stop ⟨7, 8, false, true⟩).1
    ∧ (stop ⟨7, 8, false, true⟩).1.appFd = -1 ∧ (stop ⟨7, 8, false, true⟩).1.libFd = -1
    ∧ ((stop ⟨7, 8, false, true⟩).2 ++ (stop (stop ⟨7, 8, false, true⟩).1).2).count 7 = 1
    ∧ ((stop ⟨7, 8, false, true⟩).2 ++ (stop (stop ⟨7, 8, false, true⟩).1).2).count 8 = 1) :=
  c8_stop_idempotent ⟨7, 8, false, true⟩ (by decide) (by decide) (by decide)

/-- C4 counterexample: on a non-halted adapter, a completion that reports an
error code does not re-arm the read - `handle_read` only logs in its else
branch - whether or not any bytes are reported; so the claim that the read
is re-armed on every completion path, including error completions, is false
here. -/
theorem c4_error_completion_not_rearmed :
    handle_read_rearms false true 10 false = false
    ∧ handle_read_rearms false true 0 false = false := by
  decide

/-- C4 amended: on a non-halted adapter, the read is re-armed exactly on
completions that carry no error code and at least one byte - both when the
buffer hand-off succeeds and when allocation or the intake entry point
throws; a completion with an error code or zero bytes is not re-armed. -/
theorem c4_rearm_characterisation (halt error : Bool) (bytesRead : Nat)
    (intakeThrows : Bool) :
    handle_read_rearms halt error bytesRead intakeThrows = true ↔
      (halt = false ∧ error = false ∧ 0 < bytesRead) := by
  unfold handle_read_rearms
  cases halt <;> cases error <;> cases intakeThrows <;>
    by_cases hb : 0 < bytesRead <;> simp [hb]

/-- C6: the outbound buffer built by `handle_read` for a packet of `P ≥ 1`
bytes has capacity `256 + P + 128` with the payload window of `P` bytes at
offset 256, and every header prepend of up to 100 bytes then succeeds
without reallocation (the capacity is unchanged). -/
theorem c6_headroom_sufficiency (P : Nat) (_hP : 1 ≤ P) :
    ∃ b, outbound_buffer P = some b
      ∧ b.capacity = 256 + P + 128
      ∧ b.offset = 256
      ∧ b.size = P
      ∧ ∀ h ≤ 100, ∃ b2, push_front b h = some b2 ∧ b2.capacity = b.capacity := by
  refine ⟨⟨256 + P + 128, 256, P⟩, ?_, rfl, rfl, rfl, ?_⟩
  · unfold outbound_buffer write_alloc init_headroom bufferAllocated HEADROOM TAILROOM
    dsimp only
    rw [if_pos (by omega), Nat.zero_add]
  · intro h hh
    refine ⟨⟨256 + P + 128, 256 - h, P + h⟩, ?_, rfl⟩
    unfold push_front
    dsimp only
    rw [if_pos (by omega)]

/-- Witness for C6 at the tested packet shapes P = 100 and P = 1500. -/
theorem c6_headroom_sufficiency_witness :
    (∃ b, outbound_buffer 100 = some b
      ∧ b.capacity = 256 + 100 + 128
      ∧ b.offset = 256
      ∧ b.size = 100
      ∧ ∀ h ≤ 100, ∃ b2, push_front b h = some b2 ∧ b2.capacity = b.capacity)
    ∧ (∃ b, outbound_buffer 1500 = some b
      ∧ b.capacity = 256 + 1500 + 128
      ∧ b.offset = 256
      ∧ b.size = 1500
      ∧ ∀ h ≤ 100, ∃ b2, push_front b h = some b2 ∧ b2.capacity = b.capacity) :=
  ⟨c6_headroom_sufficiency 100 (by decide), c6_headroom_sufficiency 1500 (by decide)⟩

/-- Once the scan has seen a zero-bit, any remaining one-bit aborts it. -/
theorem netmask_scan_zero_seen_none (mask : Nat) :
    ∀ n count, (∃ j, j < n ∧ mask.testBit j = true) →
      netmask_scan mask n count true = none := by
  intro n
  induction n with
  | zero =>
    rintro count ⟨j, hj, -⟩
    exact absurd hj (Nat.not_lt_zero j)
  | succ m ih =>
    rintro count ⟨j, hj, hbit⟩
    unfold netmask_scan
    by_cases hb : mask.testBit m
    · rw [if_pos hb, if_pos rfl]
    · rw [if_neg hb]
      apply ih
      refine ⟨j, ?_, hbit⟩
      rcases Nat.lt_succ_iff_lt_or_eq.mp hj with h | h
      · exact h
      · exact absurd (h ▸ hbit) hb

/-- A one-bit below a zero-bit (both under `n`) makes the scan abort,
whatever the accumulator state. -/
theorem netmask_scan_noncontig_none (mask : Nat) :
    ∀ n count zeroSeen,
      (∃ i j, j < i ∧ i < n ∧ mask.testBit i = false ∧ mask.testBit j = true) →
      netmask_scan mask n count zeroSeen = none := by
  intro n
  induction n with
  | zero =>
    rintro count zs ⟨i, j, -, hi, -, -⟩
    exact absurd hi (Nat.not_lt_zero i)
  | succ m ih =>
    rintro count zs ⟨i, j, hji, hi, hbi, hbj⟩
    unfold netmask_scan
    by_cases hb : mask.testBit m
    · have him : i ≠ m := by
        intro h
        rw [h, hb] at hbi
        exact absurd hbi (by simp)
      rw [if_pos hb]
      cases zs with
      | true => rw [if_pos rfl]
      | false =>
        rw [if_neg (by simp)]
        exact ih (count + 1) false
          ⟨i, j, hji, lt_of_le_of_ne (Nat.lt_succ_iff.mp hi) him, hbi, hbj⟩
    · rw [if_neg hb]
      apply netmask_scan_zero_seen_none
      refine ⟨j, ?_, hbj⟩
      have : i ≤ m := Nat.lt_succ_iff.mp hi
      omega

set_option maxRecDepth 4000 in
/-- Evaluation of the scan on every contiguous 32-bit mask. -/
theorem netmask_scan_contiguous_eval :
    ∀ k : Fin 33, netmask_scan (contiguousMask k.val) 32 0 false = some k.val := by
  decide

/-- C3: for an IPv4 route option carrying a netmask string: a netmask that
parses to the contiguous mask of `k` one-bits makes the route callback
receive prefix length `k`; a netmask that is non-contiguous, or that fails
to parse as an IPv4 address, is not propagated and the conservative
host-route default 32 is substituted. -/
theorem c3_netmask_route_policy (k : Nat) (hk : k ≤ 32) (mask : Nat) :
    route_prefix_len false (some (some (contiguousMask k))) = (k : Int)
    ∧ (NonContiguous mask → route_prefix_len false (some (some mask)) = 32)
    ∧ route_prefix_len false (some none) = 32 := by
  refine ⟨?_, ?_, ?_⟩
  · have h : netmask_scan (contiguousMask k) 32 0 false = some k :=
      netmask_scan_contiguous_eval ⟨k, Nat.lt_succ_of_le hk⟩
    have hpre : netmask_to_prefix_len (some (contiguousMask k)) = (k : Int) := by
      have hred : netmask_to_prefix_len (some (contiguousMask k)) =
          match netmask_scan (contiguousMask k) 32 0 false with
          | none => -1
          | some p => (p : Int) := rfl
      rw [hred, h]
    have hroute : route_prefix_len false (some (some (contiguousMask k))) =
        (if netmask_to_prefix_len (some (contiguousMask k)) < 0 then (32 : Int)
         else netmask_to_prefix_len (some (contiguousMask k))) := rfl
    rw [hroute, hpre, if_neg (Int.not_lt.mpr (Int.natCast_nonneg k))]
  · rintro ⟨i, j, hji, hi, hbi, hbj⟩
    have h : netmask_scan mask 32 0 false = none :=
      netmask_scan_noncontig_none mask 32 0 false ⟨i, j, hji, hi, hbi, hbj⟩
    have hpre : netmask_to_prefix_len (some mask) = -1 := by
      have hred : netmask_to_prefix_len (some mask) =
          match netmask_scan mask 32 0 false with
          | none => -1
          | some p => (p : Int) := rfl
      rw [hred, h]
    have hroute : route_prefix_len false (some (some mask)) =
        (if netmask_to_prefix_len (some mask) < 0 then (32 : Int)
         else netmask_to_prefix_len (some mask)) := rfl
    rw [hroute, hpre]
    norm_num
  · decide

/-- Witness for C3: the /24 mask 255.255.255.0 gives prefix 24, and the
non-contiguous mask 255.0.255.0 (= 4278255360) falls back to 32. -/
theorem c3_netmask_route_policy_witness :
    route_prefix_len false (some (some (contiguousMask 24))) = 24
    ∧ route_prefix_len false (some (some 4278255360)) = 32
    ∧ route_prefix_len false (some none) = 32 :=
  ⟨(c3_netmask_route_policy 24 (by decide) 4278255360).1,
   (c3_netmask_route_policy 24 (by decide) 4278255360).2.1
     ⟨16, 8, by decide, by decide, by decide, by decide⟩,
   (c3_netmask_route_policy 24 (by decide) 4278255360).2.2⟩

/-- C5 counterexample: `openvpn_wrapper_connect` on a session that is
already connecting - and likewise on one that is already connected - is not
rejected: with valid parameters and successful engine calls it returns
success and spawns another connect worker thread. -/
theorem c5_second_connect_not_rejected :
    (openvpn_wrapper_connect (some ⟨false, true, true, ""⟩) happyEnv).2.2 = true
    ∧ (openvpn_wrapper_connect (some ⟨false, true, true, ""⟩) happyEnv).1 =
        OPENVPN_ERROR_SUCCESS
    ∧ (openvpn_wrapper_connect (some ⟨true, false, true, ""⟩) happyEnv).2.2 = true
    ∧ (openvpn_wrapper_connect (some ⟨true, false, true, ""⟩) happyEnv).1 =
        OPENVPN_ERROR_SUCCESS := by
  decide

/-- C5 amended: `openvpn_wrapper_connect` has no in-flight guard at all:
whenever the parameters are non-null and the engine calls succeed, it marks
the session connecting and spawns a worker thread, entirely regardless of
the prior session `connected`/`connecting` state. -/
theorem c5_connect_ignores_in_flight_state (s : SessionState) (env : ConnectEnv)
    (hc : s.hasClient = true)
    (h1 : env.configNull = false) (h2 : env.usernameNull = false)
    (h3 : env.passwordNull = false) (h4 : env.evalError = false)
    (h5 : env.usernameEmpty = false) (h6 : env.passwordEmpty = false)
    (h7 : env.provideCredsError = false) :
    openvpn_wrapper_connect (some s) env =
      (OPENVPN_ERROR_SUCCESS,
        some { s with connecting := true, connected := false }, true) := by
  simp [openvpn_wrapper_connect, h1, h2, h3, h4, h5, h6, h7, hc]

/-- Witness for the amended C5 on a session that is already connecting. -/
theorem c5_connect_ignores_in_flight_state_witness :
    openvpn_wrapper_connect (some ⟨false, true, true, ""⟩) happyEnv =
      (OPENVPN_ERROR_SUCCESS, some ⟨false, true, true, ""⟩, true) :=
  c5_connect_ignores_in_flight_state ⟨false, true, true, ""⟩ happyEnv
    rfl rfl rfl rfl rfl rfl rfl rfl

/-- C7: `reconnectSession` on a session that is neither connected nor
connecting returns with no state change and without invoking the engine
soft-restart; on a connected session (with its engine client constructed)
it invokes the soft-restart exactly once and, on success, changes nothing -
in particular `connected` stays true. -/
theorem c7_reconnect_semantics (s : SessionState) (thr : Bool) (msg : String) :
    (s.connected = false → s.connecting = false →
      reconnectSession (some s) thr msg = (some s, 0))
    ∧ (s.connected = true → s.hasClient = true → thr = false →
      reconnectSession (some s) thr msg = (some s, 1)) := by
  constructor
  · intro h1 h2
    simp [reconnectSession, h1, h2]
  · intro h1 h2 h3
    simp [reconnectSession, h1, h2, h3]

/-- Witness for C7: a fully idle session is untouched, and a connected
session gets exactly one engine soft-restart and keeps its state. -/
theorem c7_reconnect_semantics_witness :
    reconnectSession (some ⟨false, false, true, ""⟩) false "" =
      (some ⟨false, false, true, ""⟩, 0)
    ∧ reconnectSession (some ⟨true, false, true, ""⟩) false "" =
      (some ⟨true, false, true, ""⟩, 1) :=
  ⟨(c7_reconnect_semantics ⟨false, false, true, ""⟩ false "").1 rfl rfl,
   (c7_reconnect_semantics ⟨true, false, true, ""⟩ false "").2 rfl rfl rfl⟩

/-- C9: the app-descriptor query returns the sentinel -1 whenever no
adapter object exists behind the factory (null session, missing client,
factory not yet created or its `tun_client_` still null); its answer is
never any negative value other than -1; and a non-negative answer can only
be the `app_fd_` of an adapter that actually exists. -/
theorem c9_get_app_fd_sentinel (sess : Option (Option AndroidClientState)) :
    ((∀ c t, sess = some (some c) →
        c.customTunClientFactory = some (some t) → False) →
      openvpn_wrapper_get_app_fd sess = -1)
    ∧ (openvpn_wrapper_get_app_fd sess = -1 ∨ 0 ≤ openvpn_wrapper_get_app_fd sess)
    ∧ (0 ≤ openvpn_wrapper_get_app_fd sess →
      ∃ c t, sess = some (some c) ∧ c.factoryCreated = true
        ∧ c.customTunClientFactory = some (some t)
        ∧ t.appFd = openvpn_wrapper_get_app_fd sess) := by
  match sess with
  | none =>
    exact ⟨fun _ => rfl, Or.inl rfl, fun h => absurd h (by decide)⟩
  | some none =>
    exact ⟨fun _ => rfl, Or.inl rfl, fun h => absurd h (by decide)⟩
  | some (some c) =>
    obtain ⟨fc, cf⟩ := c
    cases fc with
    | false =>
      have he : openvpn_wrapper_get_app_fd (some (some ⟨false, cf⟩)) = -1 := rfl
      exact ⟨fun _ => he, Or.inl he, fun hpos => absurd (he ▸ hpos) (by omega)⟩
    | true =>
      match cf with
      | none =>
        have he : openvpn_wrapper_get_app_fd (some (some ⟨true, none⟩)) = -1 := rfl
        exact ⟨fun _ => he, Or.inl he, fun hpos => absurd (he ▸ hpos) (by omega)⟩
      | some none =>
        have he : openvpn_wrapper_get_app_fd (some (some ⟨true, some none⟩)) = -1 := rfl
        exact ⟨fun _ => he, Or.inl he, fun hpos => absurd (he ▸ hpos) (by omega)⟩
      | some (some t) =>
        have he : openvpn_wrapper_get_app_fd (some (some ⟨true, some (some t)⟩)) =
            if t.appFd < 0 then -1 else t.appFd := rfl
        refine ⟨fun hno => (hno ⟨true, some (some t)⟩ t rfl rfl).elim, ?_, fun hpos => ?_⟩
        · rw [he]
          by_cases h : t.appFd < 0
          · rw [if_pos h]; exact Or.inl rfl
          · rw [if_neg h]; right; omega
        · by_cases h : t.appFd < 0
          · rw [he, if_pos h] at hpos
            exact absurd hpos (by omega)
          · rw [he, if_neg h]
            exact ⟨⟨true, some (some t)⟩, t, rfl, rfl, rfl, rfl⟩

/-- Witness for C9: the query on a session whose factory has not built an
adapter yet answers -1. -/
theorem c9_get_app_fd_sentinel_witness :
    openvpn_wrapper_get_app_fd (some (some ⟨false, none⟩)) = -1 :=
  (c9_get_app_fd_sentinel (some (some ⟨false, none⟩))).1
    (by intro c t hc ht; cases hc; simp at ht)

/-- Keys already registered keep their entry after appending a new one. -/
theorem lookupSockets_append_absent (reg : List (String × TunnelSockets))
    (tid : String) (p : TunnelSockets) (h : lookupSockets reg tid = none) :
    lookupSockets (reg ++ [(tid, p)]) tid = some p := by
  induction reg with
  | nil => simp [lookupSockets]
  | cons hd tl ih =>
    obtain ⟨k, v⟩ := hd
    unfold lookupSockets at h
    rw [List.cons_append]
    unfold lookupSockets
    by_cases hk : k = tid
    · rw [if_pos hk] at h; exact absurd h (by simp)
    · rw [if_neg hk] at h ⊢
      exact ih h

/-- C10: `createPipe` is idempotent per tunnel id: when the id is already
registered it returns the registered engine-side descriptor, creates no new
socket pair and leaves the registry unchanged; consequently a second call
right after a first successful creation returns the same descriptor with
the registry untouched and no pair created. -/
theorem c10_createPipe_idempotent (reg : List (String × TunnelSockets))
    (tid : String) (np : Option TunnelSockets) (q : TunnelSockets) :
    (∀ p, lookupSockets reg tid = some p →
      createPipe reg tid np = (p.openvpnFd, reg, false))
    ∧ (lookupSockets reg tid = none →
      createPipe (createPipe reg tid (some q)).2.1 tid np =
        ((createPipe reg tid (some q)).1,
          (createPipe reg tid (some q)).2.1, false)) := by
  constructor
  · intro p hp
    unfold createPipe
    rw [hp]
  · intro hn
    have h1 : createPipe reg tid (some q) = (q.openvpnFd, reg ++ [(tid, q)], true) := by
      unfold createPipe
      rw [hn]
    rw [h1]
    dsimp only
    unfold createPipe
    rw [lookupSockets_append_absent reg tid q hn]

/-- Witness for C10 on a concrete registry: a repeated call for tunnel t1
reuses the stored engine descriptor 10, and a create-then-call pair for a
fresh id returns the created descriptor twice without re-creating. -/
theorem c10_createPipe_idempotent_witness :
    createPipe [("t1", ⟨10, 11⟩)] "t1" (some ⟨20, 21⟩) = (10, [("t1", ⟨10, 11⟩)], false)
    ∧ createPipe (createPipe [] "t2" (some ⟨30, 31⟩)).2.1 "t2" (some ⟨40, 41⟩) =
        ((createPipe [] "t2" (some ⟨30, 31⟩)).1,
          (createPipe [] "t2" (some ⟨30, 31⟩)).2.1, false) :=
  ⟨(c10_createPipe_idempotent [("t1", ⟨10, 11⟩)] "t1" (some ⟨20, 21⟩) ⟨30, 31⟩).1
      ⟨10, 11⟩ (by decide),
   (c10_createPipe_idempotent [] "t2" (some ⟨40, 41⟩) ⟨30, 31⟩).2 rfl⟩

end NexusVpn
